import Mathlib

/-!
Verification development for the arXiv paper curator pipeline.

Shallow embedding of the Python sources under src/ :
  - src/services/arxiv/client.py      (ArxivClient: fetch_papers, _parse_response, entry getters)
  - src/services/arxiv/parser.py      (standalone parse_arxiv_xml_data and its helpers)
  - src/services/pdf_parser/_docling.py (PDFParser._validate_pdf, PDFParser.parse)
  - src/services/pdf_parser/parser.py (PDFParserService.parse)
  - src/services/metadata_fetcher.py  (MetadataFetcher: fetch_and_process_papers,
                                       _batch_process_pdfs, _download_parse_pipeline)
  - src/exceptions.py                 (exception taxonomy)

Python strings are modelled as lists of characters (PyStr) so that every
operation the code performs — str.strip, str.replace, str.split,
str.startswith, truthiness — is an executable Lean function the kernel can
evaluate. XML documents are modelled at the level the code observes them
through xml.etree.ElementTree: an entry is the tuple of find/findall results
the getters consult (element present or not, its text present or not,
attributes). Network transport, the Docling converter and pypdfium2 are
opaque boundaries: their outcome (value returned, or exception raised) is
passed in as data.
-/

namespace ArxivCurator

/-! ## Python string primitives -/

/-- PyStr models a Python str as its list of characters. -/
abbrev PyStr := List Char

/-- str coerces a Lean string literal into the model. -/
def str (s : String) : PyStr := s.data

/-- isPySpace: the whitespace characters str.strip removes (ASCII subset,
which is all the embedded inputs use). -/
def isPySpace (c : Char) : Bool :=
  c = ' ' || c = '\t' || c = '\n' || c = '\r' || c = '\x0b' || c = '\x0c'

/-- pyStrip models Python str.strip(): drop whitespace from both ends. -/
def pyStrip (s : PyStr) : PyStr :=
  ((s.dropWhile isPySpace).reverse.dropWhile isPySpace).reverse

/-- splitOnCharAux: accumulator-style scan for pySplitChar. -/
def splitOnCharAux (sep : Char) : PyStr → PyStr → List PyStr
  | [], acc => [acc.reverse]
  | c :: rest, acc =>
    if c = sep then acc.reverse :: splitOnCharAux sep rest []
    else splitOnCharAux sep rest (c :: acc)

/-- pySplitChar models Python s.split(sep) for a one-character separator
(the only form the code uses: split("/")); like Python, the result is never
empty and empty fields are kept. -/
def pySplitChar (s : PyStr) (sep : Char) : List PyStr :=
  splitOnCharAux sep s []

/-- replaceLoop: left-to-right, non-overlapping replacement, fuelled by the
input length so the kernel can evaluate it (each step consumes at least one
character, so the fuel is never exhausted before the input is). -/
def replaceLoop (pat rep : PyStr) : Nat → PyStr → PyStr
  | 0, s => s
  | _ + 1, [] => []
  | fuel + 1, c :: rest =>
    if pat ≠ [] ∧ pat.isPrefixOf (c :: rest) then
      rep ++ replaceLoop pat rep fuel ((c :: rest).drop pat.length)
    else
      c :: replaceLoop pat rep fuel rest

/-- pyReplace models Python s.replace(pat, rep): every non-overlapping
occurrence, scanning left to right. -/
def pyReplace (s pat rep : PyStr) : PyStr :=
  replaceLoop pat rep s.length s

/-- PyResult models one Python call across an opaque boundary: it either
returned a value or raised an exception carrying a message. -/
inductive PyResult (α : Type) where
  | ok (value : α)
  | exn (msg : PyStr)
deriving Repr, DecidableEq

instance {ε α : Type} [DecidableEq ε] [DecidableEq α] : DecidableEq (Except ε α) := fun x y =>
  match x, y with
  | .ok a, .ok b =>
    decidable_of_iff (a = b) ⟨fun h => h ▸ rfl, fun h => Except.ok.inj h⟩
  | .error a, .error b =>
    decidable_of_iff (a = b) ⟨fun h => h ▸ rfl, fun h => Except.error.inj h⟩
  | .ok _, .error _ => isFalse fun h => Except.noConfusion h
  | .error _, .ok _ => isFalse fun h => Except.noConfusion h

/-! ## XML data model (what ElementTree shows the parsing code) -/

/-- XmlEntry records, for one entry element, exactly the projections the two
parsers consult: for each singleton child looked up with entry.find, whether
the element exists and what its text is (`none` = element absent,
`some none` = element present with text None); for findall children, the
per-element projections in document order. -/
structure XmlEntry where
  /-- find "atom:id" : the element, and its text -/
  idText : Option (Option PyStr) := none
  /-- find "atom:title" -/
  titleText : Option (Option PyStr) := none
  /-- find "atom:summary" -/
  summaryText : Option (Option PyStr) := none
  /-- find "atom:published" -/
  publishedText : Option (Option PyStr) := none
  /-- findall "atom:author", then per author element find "atom:name" and its text -/
  authorNames : List (Option (Option PyStr)) := []
  /-- findall "atom:category", per element the "term" attribute (get, may be absent) -/
  categoryTerms : List (Option PyStr) := []
  /-- findall "atom:link", per element the ("type", "href") attributes -/
  links : List (Option PyStr × Option PyStr) := []
deriving Repr, DecidableEq

/-- XmlData is the response body as the parsers see it: either the whole
document fails ElementTree parsing (ET.ParseError), or it is well formed and
presents a list of entry elements in document order. -/
inductive XmlData where
  | malformed
  | wellFormed (entries : List XmlEntry)
deriving Repr, DecidableEq

/-- ArxivPaper mirrors src/schemas/arxiv/paper.py (pydantic model, all fields
required but allowed to be empty strings / empty lists). -/
structure ArxivPaper where
  arxiv_id : PyStr
  title : PyStr
  authors : List PyStr
  summary : PyStr
  published_date : PyStr
  categories : List PyStr
  pdf_url : PyStr
deriving Repr, DecidableEq

/-- Python errors that the arXiv fetch/parse code can raise.
`arxivAPITimeoutError` mirrors the `raise ArxivAPITimeoutError(...)`
statement in client.py line 111; note that src/exceptions.py defines no
class of that name (so the import on client.py line 11 cannot even succeed),
which is recorded in the analysis of claim C6. `typeError` models the
TypeError CPython raises when an except clause names a non-exception-class
(parser.py line 25 writes a types.UnionType there). -/
inductive ArxivError where
  | arxivAPIException (msg : PyStr)
  | arxivParseError (msg : PyStr)
  | arxivAPITimeoutError (msg : PyStr)
  | typeError
deriving Repr, DecidableEq

/-! ## ArxivClient (src/services/arxiv/client.py) -/

namespace Client

/-- getText embeds ArxivClient._get_text (client.py lines 209-214): absent
element or absent text gives "", otherwise the text is stripped and, when
clean_newlines is set, newlines are replaced by spaces. -/
def getText (el : Option (Option PyStr)) (cleanNewlines : Bool) : PyStr :=
  match el with
  | none => []
  | some none => []
  | some (some t) =>
    let text := pyStrip t
    if cleanNewlines then pyReplace text (str "\n") (str " ") else text

/-- lastSegment models the Python idiom s.split("/")[-1]. pySplitChar never
returns an empty list, so the default is never used. -/
def lastSegment (s : PyStr) : PyStr :=
  (pySplitChar s '/').getLastD []

/-- getArxivId embeds ArxivClient._get_arxiv_id (client.py lines 167-172):
if the id element or its text is missing, None; otherwise the last
"/"-segment of the raw text (no strip, no newline cleaning). -/
def getArxivId (e : XmlEntry) : Option PyStr :=
  match e.idText with
  | none => none
  | some none => none
  | some (some t) => some (lastSegment t)

/-- getTitle embeds ArxivClient._get_arxiv_title (clean_newlines=True). -/
def getTitle (e : XmlEntry) : PyStr := getText e.titleText true

/-- getAuthors embeds ArxivClient._get_arxiv_authors: per author element the
name text via _get_text (clean_newlines defaulting to False), kept only when
truthy (non-empty). -/
def getAuthors (e : XmlEntry) : List PyStr :=
  e.authorNames.filterMap fun nameEl =>
    let name := getText nameEl false
    if name = [] then none else some name

/-- getSummary embeds ArxivClient._get_arxiv_summary (clean_newlines=True). -/
def getSummary (e : XmlEntry) : PyStr := getText e.summaryText true

/-- getPublished embeds ArxivClient._get_arxiv_published (clean_newlines
defaulting to False). -/
def getPublished (e : XmlEntry) : PyStr := getText e.publishedText false

/-- getCategories embeds ArxivClient._get_arxiv_categories: the term
attribute of each category element, kept only when truthy. -/
def getCategories (e : XmlEntry) : List PyStr :=
  e.categoryTerms.filterMap fun term =>
    match term with
    | none => none
    | some t => if t = [] then none else some t

/-- upgradeUrl embeds the http-to-https rewrite in _get_arxiv_pdf_url
(client.py lines 204-205): guarded by startswith, performed by
str.replace. -/
def upgradeUrl (url : PyStr) : PyStr :=
  if (str "http://arxiv.org/").isPrefixOf url then
    pyReplace url (str "http://arxiv.org/") (str "https://arxiv.org/")
  else url

/-- getPdfUrl embeds ArxivClient._get_arxiv_pdf_url: the href of the first
link whose type attribute equals "application/pdf" (href defaulting to ""),
with the http-to-https upgrade; "" when no such link exists. -/
def getPdfUrl : List (Option PyStr × Option PyStr) → PyStr
  | [] => []
  | (ty, href) :: rest =>
    if ty = some (str "application/pdf") then upgradeUrl (href.getD [])
    else getPdfUrl rest

/-- parseSingleEntry embeds ArxivClient._parse_single_entry (client.py lines
140-165): entries whose id resolves to None are dropped; every other field is
extracted by its getter (nothing in the embedded extraction raises, so the
enclosing try/except that returns None on exception has no further
effect). -/
def parseSingleEntry (e : XmlEntry) : Option ArxivPaper :=
  match getArxivId e with
  | none => none
  | some arxivId =>
    some {
      arxiv_id := arxivId
      title := getTitle e
      authors := getAuthors e
      summary := getSummary e
      published_date := getPublished e
      categories := getCategories e
      pdf_url := getPdfUrl e.links }

/-- parseResponse embeds ArxivClient._parse_response (client.py lines
119-138): on an ET.ParseError the whole call raises ArxivParseError (no
partial list); otherwise each entry is parsed independently and the truthy
results are appended in document order. -/
def parseResponse (xml : XmlData) : Except ArxivError (List ArxivPaper) :=
  match xml with
  | .malformed => .error (.arxivParseError (str "Failed to parse arXiv XML response"))
  | .wellFormed entries => .ok (entries.filterMap parseSingleEntry)

/-- Transport is the outcome of the HTTP GET in fetch_papers (client.py
lines 100-103): a timeout (httpx.TimeoutException), a non-2xx status
(raise_for_status giving httpx.HTTPStatusError), or a body. -/
inductive Transport where
  | timeout
  | httpStatusError (code : Nat)
  | ok (body : XmlData)
deriving Repr, DecidableEq

/-- fetchPapers embeds the error dispatch of ArxivClient.fetch_papers
(client.py lines 89-117). The try block covers both the HTTP call and
_parse_response, and the except chain is: httpx.TimeoutException to
ArxivAPITimeoutError; httpx.HTTPStatusError to ArxivAPIException; then a
blanket except-Exception clause to ArxivAPIException. An ArxivParseError
raised by _parse_response matches neither of the first two clauses and is
therefore swallowed by the blanket clause and re-raised as a plain
ArxivAPIException. -/
def fetchPapers (t : Transport) : Except ArxivError (List ArxivPaper) :=
  match t with
  | .timeout => .error (.arxivAPITimeoutError (str "arXiv API request timeout"))
  | .httpStatusError _ =>
    .error (.arxivAPIException (str "arXiv API returned error"))
  | .ok body =>
    match parseResponse body with
    | .ok papers => .ok papers
    | .error _ =>
      .error (.arxivAPIException (str "Unexpected error fetching papers from arXiv"))

end Client

/-! ## Standalone parser (src/services/arxiv/parser.py)

A second, near-duplicate implementation of response parsing. Claim C10 asks
whether it is behaviourally equivalent to the client's. -/

namespace Standalone

/-- elText embeds __el_text (parser.py lines 85-90); the body is the same as
the client's _get_text. -/
def elText (el : Option (Option PyStr)) (cleanNewlines : Bool) : PyStr :=
  match el with
  | none => []
  | some none => []
  | some (some t) =>
    let text := pyStrip t
    if cleanNewlines then pyReplace text (str "\n") (str " ") else text

/-- arxivId embeds __arxiv_id (parser.py lines 50-53): unlike the client's
_get_arxiv_id, the id text is first cleaned via __el_text (strip and newline
replacement), the entry is dropped when the cleaned text is empty, and only
then is the text split on "/". -/
def arxivId (e : XmlEntry) : Option PyStr :=
  let id := elText e.idText true
  if id.length = 0 then none else some (Client.lastSegment id)

/-- arxivAuthors embeds __arxiv_authors (parser.py lines 56-62): unlike the
client's _get_arxiv_authors, names are cleaned with clean_newlines=True. -/
def arxivAuthors (e : XmlEntry) : List PyStr :=
  e.authorNames.filterMap fun nameEl =>
    let name := elText nameEl true
    if name = [] then none else some name

/-- arxivCategories embeds __arxiv_categories (parser.py lines 65-71), the
same logic as the client's _get_arxiv_categories. -/
def arxivCategories (e : XmlEntry) : List PyStr :=
  e.categoryTerms.filterMap fun term =>
    match term with
    | none => none
    | some t => if t = [] then none else some t

/-- arxivPdfUrl embeds __arxiv_pdf_url (parser.py lines 74-82), the same
logic as the client's _get_arxiv_pdf_url. -/
def arxivPdfUrl : List (Option PyStr × Option PyStr) → PyStr
  | [] => []
  | (ty, href) :: rest =>
    if ty = some (str "application/pdf") then Client.upgradeUrl (href.getD [])
    else arxivPdfUrl rest

/-- parseArxivPaper embeds __parse_arxiv_paper (parser.py lines 30-47):
entries whose id resolves to None are dropped, the other fields come from the
helpers above (title/summary cleaned, published not cleaned). -/
def parseArxivPaper (e : XmlEntry) : Option ArxivPaper :=
  match arxivId e with
  | none => none
  | some id =>
    some {
      arxiv_id := id
      title := elText e.titleText true
      authors := arxivAuthors e
      summary := elText e.summaryText true
      published_date := elText e.publishedText false
      categories := arxivCategories e
      pdf_url := arxivPdfUrl e.links }

/-- parseArxivXmlData embeds parse_arxiv_xml_data (parser.py lines 11-27).
On well-formed input it collects the truthy per-entry results in document
order. On malformed input ET.fromstring raises ET.ParseError and control
reaches the clause `except ET.ParseError | Exception as e:` — its target is
a types.UnionType, not an exception class, so CPython raises TypeError
("catching classes that do not inherit from BaseException is not allowed")
instead of running the handler; the intended ArxivParseError is never
raised. -/
def parseArxivXmlData (xml : XmlData) : Except ArxivError (List ArxivPaper) :=
  match xml with
  | .malformed => .error .typeError
  | .wellFormed entries => .ok (entries.filterMap parseArxivPaper)

end Standalone

/-! ## PDF parsing (src/services/pdf_parser/_docling.py and parser.py) -/

namespace Pdf

/-- PdfContent mirrors src/schemas/pdf_parser/models.py PdfContent,
restricted to the fields the verified claims observe (the section-extraction
loop over the opaque Docling document is outside every claim). -/
structure PdfContent where
  raw_text : PyStr
deriving Repr, DecidableEq

/-- PdfFileInfo is what _validate_pdf observes about an existing file: its
stat size, its leading bytes as read by open/read, and the page count as
reported by pypdfium2 (which, being an external call inside the method's try
block, may itself raise). -/
structure PdfFileInfo where
  size : Nat
  content : List Nat
  pages : PyResult Nat
deriving Repr, DecidableEq

/-- FileSystem maps a path to the file found there, none when Path.exists()
is false. -/
def FileSystem : Type := PyStr → Option PdfFileInfo

/-- pdfMagic is the byte signature of b"%PDF-" checked by _validate_pdf. -/
def pdfMagic : List Nat := [37, 80, 68, 70, 45]

/-- ValidationOutcome is the (bool, err) pair returned by
PDFParser._validate_pdf: (True, None), (False, reason-string), or — from the
method's own except clause — (False, exception-object). -/
inductive ValidationOutcome where
  | valid
  | invalid (reason : PyStr)
  | invalidExn (msg : PyStr)
deriving Repr, DecidableEq

/-- validatePdf embeds PDFParser._validate_pdf (_docling.py lines 88-123):
existence, emptiness, size limit, the %PDF- header on the first 8 bytes,
then the pypdfium2 page-count limit, in that order, returning on the first
failure; an exception from the pypdfium2 call is caught by the method's
except clause and returned as (False, e). -/
def validatePdf (maxFileSizeBytes maxPages : Nat) (fs : FileSystem)
    (path : PyStr) : ValidationOutcome :=
  match fs path with
  | none => .invalid (str "NotExist")
  | some f =>
    if f.size = 0 then .invalid (str "EmptyFile")
    else if f.size > maxFileSizeBytes then .invalid (str "FileSizeOutLimits")
    else if ¬ pdfMagic.isPrefixOf (f.content.take 8) then
      .invalid (str "FileMissingPDFHeader")
    else
      match f.pages with
      | .exn m => .invalidExn m
      | .ok actualPages =>
        if actualPages > maxPages then .invalid (str "FilePageOutLimits")
        else .valid

/-- ParseIssue is what PDFParser.parse can raise: the PDFValidationError it
raises itself on a failed precondition, or whatever exception the Docling
converter.convert call raises (not caught inside PDFParser.parse). -/
inductive ParseIssue where
  | pdfValidationError (err : PyStr)
  | doclingError (msg : PyStr)
deriving Repr, DecidableEq

/-- doclingParse embeds PDFParser.parse (_docling.py lines 38-53 together
with the content assembly that follows): validate first, raising
PDFValidationError on a failed check (carrying the reason string, or the
caught exception's text); only then call the external converter, whose
outcome is passed in as `convert`; on converter success the method always
builds and returns a PdfContent value. -/
def doclingParse (maxFileSizeBytes maxPages : Nat) (fs : FileSystem)
    (path : PyStr) (convert : PyResult PdfContent) :
    Except ParseIssue (Option PdfContent) :=
  match validatePdf maxFileSizeBytes maxPages fs path with
  | .invalid reason => .error (.pdfValidationError reason)
  | .invalidExn m => .error (.pdfValidationError m)
  | .valid =>
    match convert with
    | .exn m => .error (.doclingError m)
    | .ok content => .ok (some content)

/-- serviceParse embeds PDFParserService.parse (pdf_parser/parser.py lines
22-42): it awaits the inner parser inside a try block, returns the result
when truthy, logs and falls through to None when falsy, and its blanket
`except Exception as e: pass` converts every raised exception — the
PDFValidationError of a precondition rejection and any Docling failure alike
— into a fall-through return of None. -/
def serviceParse (maxFileSizeBytes maxPages : Nat) (fs : FileSystem)
    (path : PyStr) (convert : PyResult PdfContent) : Option PdfContent :=
  match doclingParse maxFileSizeBytes maxPages fs path convert with
  | .error _ => none
  | .ok none => none
  | .ok (some content) => some content

end Pdf

/-! ## Metadata fetcher (src/services/metadata_fetcher.py) -/

namespace Fetcher

/-- ArxivMetadata mirrors src/schemas/pdf_parser/models.py ArxivMetadata. -/
structure ArxivMetadata where
  arxiv_id : PyStr
  title : PyStr
  authors : List PyStr
  summary : PyStr
  categories : List PyStr
  published_date : PyStr
  pdf_url : PyStr
deriving Repr, DecidableEq

/-- convArxivMetadata embeds conv_arxiv_metadata (src/services/converter.py):
a field-for-field copy of the ArxivPaper. -/
def convArxivMetadata (paper : ArxivPaper) : ArxivMetadata :=
  { arxiv_id := paper.arxiv_id
    title := paper.title
    authors := paper.authors
    summary := paper.summary
    categories := paper.categories
    published_date := paper.published_date
    pdf_url := paper.pdf_url }

/-- ParsedPaper mirrors src/schemas/pdf_parser/models.py ParsedPaper. -/
structure ParsedPaper where
  arxiv_metadata : ArxivMetadata
  pdf_content : Option Pdf.PdfContent
deriving Repr, DecidableEq

/-- ProcessingStat mirrors the ProcessingStat dataclass (metadata_fetcher.py
lines 20-27); error entries are kept as strings and the float elapsed time is
not modelled (no claim observes it). -/
structure ProcessingStat where
  papers_fetched : Nat := 0
  pdfs_downloaded : Nat := 0
  pdfs_parsed : Nat := 0
  papers_stored : Nat := 0
  errors : List PyStr := []
deriving Repr, DecidableEq

/-- ItemBehavior packages the two opaque calls one item-pipeline makes: the
outcome of arxiv_client.download_pdf (no such method exists in client.py —
the call site is its only trace; it returns an optional path or raises), and
the outcome of pdf_parser.parse on the downloaded path (an optional
PdfContent, or an exception). -/
structure ItemBehavior where
  download : PyResult (Option PyStr)
  parse : PyResult (Option Pdf.PdfContent)
deriving Repr, DecidableEq

/-- downloadParsePipeline embeds MetadataFetcher._download_parse_pipeline
(metadata_fetcher.py lines 112-151) at value level: download under the
download semaphore; a falsy path returns (False, None) at once; otherwise
parse under the parse semaphore, a truthy PdfContent being wrapped into a
ParsedPaper and a falsy one leaving parsed_paper as None; any exception along
the way is caught by the outer try and re-raised as
MetadataFetchingException. -/
def downloadParsePipeline (paper : ArxivPaper) (b : ItemBehavior) :
    Except PyStr (Bool × Option ParsedPaper) :=
  match b.download with
  | .exn _ => .error (str "Pipeline error for " ++ paper.arxiv_id)
  | .ok none => .ok (false, none)
  | .ok (some _pdfPath) =>
    match b.parse with
    | .exn _ => .error (str "Pipeline error for " ++ paper.arxiv_id)
    | .ok none => .ok (true, none)
    | .ok (some content) =>
      .ok (true, some { arxiv_metadata := convArxivMetadata paper
                        pdf_content := some content })

/-- SlotEvent is an observable semaphore / stage event of one item-pipeline:
entering and leaving `async with download_semaphore` and
`async with parse_semaphore` (an async-with releases on every exit, normal
return and exception alike), and the completion of the download call with
its truthiness. -/
inductive SlotEvent where
  | acquireDownload
  | releaseDownload
  | acquireParse
  | releaseParse
  | downloadDone (ok : Bool)
  | parseDone
deriving Repr, DecidableEq

/-- pipelineTrace embeds _download_parse_pipeline again, now recording the
semaphore events in program order next to the value computed; the value
component coincides with downloadParsePipeline (proved below). -/
def pipelineTrace (paper : ArxivPaper) (b : ItemBehavior) :
    List SlotEvent × Except PyStr (Bool × Option ParsedPaper) :=
  match b.download with
  | .exn _ =>
    -- download_pdf raised inside the download block: the block releases on
    -- exit, then the outer except re-raises MetadataFetchingException
    ([.acquireDownload, .releaseDownload],
     .error (str "Pipeline error for " ++ paper.arxiv_id))
  | .ok none =>
    -- `return (False, None)` executes inside the download block; the
    -- semaphore is released as the return exits the block
    ([.acquireDownload, .downloadDone false, .releaseDownload],
     .ok (false, none))
  | .ok (some _pdfPath) =>
    match b.parse with
    | .exn _ =>
      ([.acquireDownload, .downloadDone true, .releaseDownload,
        .acquireParse, .releaseParse],
       .error (str "Pipeline error for " ++ paper.arxiv_id))
    | .ok none =>
      ([.acquireDownload, .downloadDone true, .releaseDownload,
        .acquireParse, .parseDone, .releaseParse],
       .ok (true, none))
    | .ok (some content) =>
      ([.acquireDownload, .downloadDone true, .releaseDownload,
        .acquireParse, .parseDone, .releaseParse],
       .ok (true, some { arxiv_metadata := convArxivMetadata paper
                         pdf_content := some content }))

/-- gatherPipelines embeds lines 100-102 of _batch_process_pdfs: one
pipeline task per paper, awaited with asyncio.gather(...,
return_exceptions=True) — the i-th slot of the result is the i-th task's
value, or the exception it raised, in task-creation order, and one task's
exception never cancels the others. -/
def gatherPipelines (items : List (ArxivPaper × ItemBehavior)) :
    List (Except PyStr (Bool × Option ParsedPaper)) :=
  items.map fun pb => downloadParsePipeline pb.1 pb.2

/-- processResults embeds the result loop of _batch_process_pdfs (lines
105-110): `for paper, result in zip(papers, pipeline_results)` with an
isinstance(result, Exception) branch and an unpacking branch — both branch
bodies in the source are the literal `...` (Ellipsis, a no-op), so the fold
leaves the accumulated statistics untouched whatever the results are. -/
def processResults (stat : ProcessingStat)
    (results : List (ArxivPaper × Except PyStr (Bool × Option ParsedPaper))) :
    ProcessingStat :=
  results.foldl
    (fun s pr =>
      match pr.2 with
      | .error _ => s  -- `if isinstance(result, Exception): ...`
      | .ok _ => s)    -- `else: download_success, parsed_paper = result; ...`
    stat

/-- batchProcessPdfs embeds MetadataFetcher._batch_process_pdfs (lines
91-110) end to end: gather all item-pipelines, then run the (no-op) result
loop; the method itself returns None, so its only observable product is the
statistics object it would have updated. -/
def batchProcessPdfs (items : List (ArxivPaper × ItemBehavior))
    (stat : ProcessingStat) : ProcessingStat :=
  processResults stat ((items.map fun pb => pb.1).zip (gatherPipelines items))

/-- fetchAndProcessPapers embeds MetadataFetcher.fetch_and_process_papers
(metadata_fetcher.py lines 52-89), with the fetch outcome passed in. The try
block fetches, sets papers_fetched, returns the statistics early when the
list is empty, and otherwise reaches `if process_pdfs: ...` whose body is
the literal `...`; no return statement follows, and the blanket
`except Exception: pass` swallows every fetch-stage error; in both of those
cases control falls off the end of the function, i.e. returns Python None. -/
def fetchAndProcessPapers (fetched : Except ArxivError (List ArxivPaper))
    (_processPdfs : Bool) : Option ProcessingStat :=
  match fetched with
  | .error _ => none
  | .ok papers =>
    if papers.isEmpty then
      some { papers_fetched := papers.length }
    else
      none

end Fetcher

/-! ## Rate limiter (client.py lines 92-98) and downloader

The downloader (ArxivClient.download_pdf) is called by
_download_parse_pipeline but no such method exists anywhere under src/; the
definitions below marked "Modelled from the spec" reconstruct it from spec.md
section 4.2. The fetch-side rate limiting is embedded from client.py. Time
is a deterministic injected clock: time.time() reads it, asyncio.sleep(d)
advances it by exactly d. -/

namespace Rate

/-- RLState is the client's rate-limit state together with the clock: the
field lastRequestTime models self._last_request_time (initialised to None in
the constructor, client.py line 22). -/
structure RLState where
  clock : Nat
  lastRequestTime : Option Nat
deriving Repr, DecidableEq

/-- initState models a freshly constructed ArxivClient (last request time
None) observed at clock 0. -/
def initState : RLState := { clock := 0, lastRequestTime := none }

/-- rateLimitWait embeds client.py lines 93-96: when a last request time is
recorded and less than `delay` has elapsed since it, sleep exactly the
difference. -/
def rateLimitWait (delay : Nat) (s : RLState) : RLState :=
  match s.lastRequestTime with
  | none => s
  | some last =>
    let timeSinceLast := s.clock - last
    if timeSinceLast < delay then
      { s with clock := s.clock + (delay - timeSinceLast) }
    else s

/-- issueNetworkCall embeds the call protocol of fetch_papers (client.py
lines 92-103): rate-limit wait, then record time.time() as the new
last-request checkpoint (line 98), then issue the request at that instant.
It returns the post-state and the time at which the network call went
out. -/
def issueNetworkCall (delay : Nat) (s : RLState) : RLState × Nat :=
  let s1 := rateLimitWait delay s
  ({ clock := s1.clock, lastRequestTime := some s1.clock }, s1.clock)

/-- fetchNetworkCall is the HTTP GET of fetch_papers, going through the
shared checkpoint as embedded above. -/
def fetchNetworkCall (delay : Nat) (s : RLState) : RLState × Nat :=
  issueNetworkCall delay s

/-- Modelled from the spec: ArxivClient.download_pdf is missing from src/
(only its call site in metadata_fetcher.py line 130 exists). Spec section
4.2 says each download attempt runs "under the shared rate-limit checkpoint
(§4.1)", i.e. through the same last-request-time state the fetcher uses, so
a download-side network call is the same checkpointed call. -/
def downloadNetworkCall (delay : Nat) (s : RLState) : RLState × Nat :=
  issueNetworkCall delay s

/-- NetOp is one network operation in an interleaving of fetches and
downloads; `advance` is how much wall time elapses (other work) before the
operation begins. -/
inductive NetOp where
  | fetchOp (advance : Nat)
  | downloadOp (advance : Nat)
deriving Repr, DecidableEq

/-- runCalls threads a sequence of fetch/download operations through one
shared rate-limit state and records the instant each network call went
out. -/
def runCalls (delay : Nat) : List NetOp → RLState → List Nat
  | [], _ => []
  | .fetchOp adv :: rest, s =>
    let step := fetchNetworkCall delay { s with clock := s.clock + adv }
    step.2 :: runCalls delay rest step.1
  | .downloadOp adv :: rest, s =>
    let step := downloadNetworkCall delay { s with clock := s.clock + adv }
    step.2 :: runCalls delay rest step.1

end Rate

namespace Download

/-- DlState is the downloader-visible world: which destination paths hold a
(complete) file, and how many network calls have been made so far. -/
structure DlState where
  files : PyStr → Bool
  networkCalls : Nat

/-- maxAttempts is the configured maximum attempt count K (spec section 4.2,
default 3). -/
def maxAttempts : Nat := 3

/-- Modelled from the spec: the retry loop of the missing
ArxivClient.download_pdf, spec section 4.2 — up to K attempts, each attempt
one network call; a successful attempt leaves the file at the destination
and returns its path; on final exhaustion any partial file is deleted and
the call returns none. `attempts` lists, per attempt, whether it would
succeed. -/
def attemptLoop (dest : PyStr) : List Bool → DlState → Option PyStr × DlState
  | [], s =>
    (none, { s with files := fun p => if p = dest then false else s.files p })
  | a :: rest, s =>
    let s1 := { s with networkCalls := s.networkCalls + 1 }
    if a then
      (some dest, { s1 with files := fun p => if p = dest then true else s1.files p })
    else attemptLoop dest rest s1

/-- Modelled from the spec: ArxivClient.download_pdf is absent from src/
(metadata_fetcher.py line 130 is its only trace); spec section 4.2 gives its
contract — if forceRedownload is false and a file already exists at the
destination, return that path immediately with zero network calls; otherwise
run the K-attempt retry loop. -/
def download (force : Bool) (dest : PyStr) (attempts : List Bool)
    (s : DlState) : Option PyStr × DlState :=
  if !force && s.files dest then (some dest, s)
  else attemptLoop dest (attempts.take maxAttempts) s

end Download

/-! ## Helper projections and concrete instances used by the theorems -/

/-- papersOf projects the list out of a parse/fetch outcome (empty on
error); used to state properties of the returned records. -/
def papersOf : Except ArxivError (List ArxivPaper) → List ArxivPaper
  | .ok papers => papers
  | .error _ => []

/-- idTextClean states that an entry's id text, when present, is unchanged
by the standalone parser's cleaning (already stripped, no newlines) and
non-empty — the domain on which the two id extractors coincide. -/
def idTextClean (e : XmlEntry) : Bool :=
  match e.idText with
  | none => true
  | some none => true
  | some (some t) =>
    pyStrip t = t && pyReplace t (str "\n") (str " ") = t && t ≠ []

/-- authorsClean states that each author name text, when present, has a
stripped form unchanged by newline replacement — the domain on which the
two author extractors coincide. -/
def authorsClean (e : XmlEntry) : Bool :=
  e.authorNames.all fun nameEl =>
    match nameEl with
    | none => true
    | some none => true
    | some (some t) => pyReplace (pyStrip t) (str "\n") (str " ") = pyStrip t

/-- entrySlashId: an entry whose id element is present and whose text ends
in a slash, as in an id URI with an empty last path segment. -/
def entrySlashId : XmlEntry :=
  { idText := some (some (str "http://arxiv.org/abs/")) }

/-- entryWsId: an entry whose id element is present with whitespace-only
text. -/
def entryWsId : XmlEntry :=
  { idText := some (some (str " ")) }

/-- entryFull: a fully populated, clean entry. -/
def entryFull : XmlEntry :=
  { idText := some (some (str "http://arxiv.org/abs/2301.00001v1"))
    titleText := some (some (str "A Paper"))
    summaryText := some (some (str "An abstract."))
    publishedText := some (some (str "2023-01-01T00:00:00Z"))
    authorNames := [some (some (str "Ada Lovelace"))]
    categoryTerms := [some (str "cs.AI")]
    links := [(some (str "application/pdf"), some (str "http://arxiv.org/pdf/2301.00001v1"))] }

/-- paperFull: the record both parsers produce from entryFull. -/
def paperFull : ArxivPaper :=
  { arxiv_id := str "2301.00001v1"
    title := str "A Paper"
    authors := [str "Ada Lovelace"]
    summary := str "An abstract."
    published_date := str "2023-01-01T00:00:00Z"
    categories := [str "cs.AI"]
    pdf_url := str "https://arxiv.org/pdf/2301.00001v1" }

/-- samplePaperA and samplePaperB: two fetched records for the pipeline
theorems. -/
def samplePaperA : ArxivPaper :=
  { arxiv_id := str "2301.00001v1", title := str "A", authors := [],
    summary := [], published_date := [], categories := [], pdf_url := [] }

/-- samplePaperB: a second record. -/
def samplePaperB : ArxivPaper :=
  { arxiv_id := str "2301.00002v1", title := str "B", authors := [],
    summary := [], published_date := [], categories := [], pdf_url := [] }

/-- behaviorRaise: an item-pipeline whose download call raises. -/
def behaviorRaise : Fetcher.ItemBehavior :=
  { download := .exn (str "connection reset"), parse := .ok none }

/-- behaviorOk: an item-pipeline that downloads and parses successfully. -/
def behaviorOk : Fetcher.ItemBehavior :=
  { download := .ok (some (str "data/arxiv_pdfs/2301.00002v1.pdf"))
    parse := .ok (some { raw_text := str "body" }) }

/-- behaviorNoFile: an item-pipeline whose download returns None. -/
def behaviorNoFile : Fetcher.ItemBehavior :=
  { download := .ok none, parse := .ok (some { raw_text := str "body" }) }

/-- goodPdfFile: a file passing all five validation checks (for page limit
20 and size limit 1000). -/
def goodPdfFile : Pdf.PdfFileInfo :=
  { size := 100, content := Pdf.pdfMagic ++ [49, 46, 52], pages := .ok 5 }

/-- badHeaderPdfFile: a file whose first bytes are not %PDF- and whose page
count also exceeds any small limit — only the header reason may surface. -/
def badHeaderPdfFile : Pdf.PdfFileInfo :=
  { size := 100, content := [60, 104, 116, 109, 108, 62], pages := .ok 999 }

/-- fsOneGood: a file system with exactly one valid PDF at good.pdf. -/
def fsOneGood : Pdf.FileSystem :=
  fun p => if p = str "good.pdf" then some goodPdfFile else none

/-- fsBadHeader: a file system with the non-PDF file at page.html. -/
def fsBadHeader : Pdf.FileSystem :=
  fun p => if p = str "page.html" then some badHeaderPdfFile else none

/-- cachedState: a downloader state in which the destination file already
exists and 7 network calls have happened. -/
def cachedState : Download.DlState :=
  { files := fun p => decide (p = str "data/arxiv_pdfs/2301.00001v1.pdf")
    networkCalls := 7 }

/-! ## Theorems -/

/-- C1: evaluation of the batch-processing step at a failing input. A raising
item-pipeline is indeed converted into that item's slot of the gathered
results while the sibling still reaches its own terminal outcome (first
conjunct), but the result-processing loop of _batch_process_pdfs leaves the
statistics untouched — in particular its error log stays empty — because both
of its branch bodies are the literal Ellipsis: the outcomes, faulty and
successful alike, are silently dropped, contradicting the claim's mandate. -/
theorem C1_fault_converted_but_outcome_dropped :
    Fetcher.gatherPipelines [(samplePaperA, behaviorRaise), (samplePaperB, behaviorOk)] =
      [.error (str "Pipeline error for " ++ samplePaperA.arxiv_id),
       .ok (true, some { arxiv_metadata := Fetcher.convArxivMetadata samplePaperB
                         pdf_content := some { raw_text := str "body" } })] ∧
    Fetcher.batchProcessPdfs [(samplePaperA, behaviorRaise), (samplePaperB, behaviorOk)]
      {} = ({} : Fetcher.ProcessingStat) :=
  ⟨rfl, rfl⟩

/-- C2: evaluation of fetch_and_process_papers at the failing inputs. A
fetch-stage error is swallowed by the blanket except clause and the caller
receives Python None instead of a surfaced fatal error (first conjunct); a
successful fetch of a non-empty paper list also falls off the end of the
function and the caller again receives None instead of a ProcessingStat
(second conjunct); the only input on which a ProcessingStat is ever returned
is an empty fetch (third conjunct). -/
theorem C2_fetch_errors_and_stats_swallowed :
    Fetcher.fetchAndProcessPapers
        (.error (.arxivAPIException (str "arXiv API returned error"))) true = none ∧
    Fetcher.fetchAndProcessPapers (.ok [samplePaperA]) true = none ∧
    Fetcher.fetchAndProcessPapers (.ok []) true = some { papers_fetched := 0 } :=
  ⟨rfl, rfl, rfl⟩

/-- C5: evaluation of the parsing service at the failing input. For a path
that passes all five preconditions but whose Docling conversion raises, the
inner adapter does raise a Docling-side error distinct from
PDFValidationError (third conjunct), but PDFParserService.parse returns None
for it (first conjunct) exactly as it does for a precondition rejection
(second and fourth conjuncts): the caller of the parsing service cannot tell
an extraction failure from a policy rejection. -/
theorem C5_service_erases_failure_distinction :
    Pdf.serviceParse 1000 20 fsOneGood (str "good.pdf")
        (.exn (str "docling crashed")) = none ∧
    Pdf.serviceParse 1000 20 fsOneGood (str "missing.pdf")
        (.ok { raw_text := str "text" }) = none ∧
    Pdf.doclingParse 1000 20 fsOneGood (str "good.pdf")
        (.exn (str "docling crashed")) =
      .error (.doclingError (str "docling crashed")) ∧
    Pdf.doclingParse 1000 20 fsOneGood (str "missing.pdf")
        (.ok { raw_text := str "text" }) =
      .error (.pdfValidationError (str "NotExist")) := by
  refine ⟨?_, ?_, ?_, ?_⟩ <;> decide

/-- C6: evaluation of fetch_papers at the failing input. A response body
that fails XML parsing makes _parse_response raise ArxivParseError (second
conjunct), but at the fetch_papers boundary that exception is caught by the
blanket except clause and re-raised as a plain ArxivAPIException (first
conjunct) — the caller of fetch sees a FetchError, not the ParseError the
claim promises. The non-2xx branch does raise the FetchError kind (third
conjunct). The timeout branch cannot behave as claimed at all: it raises
ArxivAPITimeoutError, a class src/exceptions.py never defines, so importing
the client module fails. -/
theorem C6_parse_error_not_surfaced :
    Client.fetchPapers (.ok .malformed) =
      .error (.arxivAPIException (str "Unexpected error fetching papers from arXiv")) ∧
    Client.parseResponse .malformed =
      .error (.arxivParseError (str "Failed to parse arXiv XML response")) ∧
    Client.fetchPapers (.httpStatusError 500) =
      .error (.arxivAPIException (str "arXiv API returned error")) :=
  ⟨rfl, rfl, rfl⟩

/-- C3 counterexample: a well-formed response with one entry whose id element
is present and whose text ends in a slash. The entry is not dropped — fetch
returns exactly one record — but that record's id is the empty string,
contradicting "each with a non-empty id". -/
theorem C3_counterexample :
    (papersOf (Client.parseResponse (XmlData.wellFormed [entrySlashId]))).length = 1 ∧
    ¬ (∀ p ∈ papersOf (Client.parseResponse (XmlData.wellFormed [entrySlashId])),
        p.arxiv_id ≠ []) := by
  decide

theorem parseSingleEntry_isSome (e : XmlEntry) :
    (Client.parseSingleEntry e).isSome = (Client.getArxivId e).isSome := by
  unfold Client.parseSingleEntry
  cases h : Client.getArxivId e <;> simp

theorem length_filterMap_eq_countP {α β : Type} (f : α → Option β) (l : List α) :
    (l.filterMap f).length = l.countP (fun a => (f a).isSome) := by
  induction l with
  | nil => rfl
  | cons x xs ih =>
    cases h : f x <;> simp [List.filterMap_cons, h, List.countP_cons, ih]

/-- C3 (amended): for every well-formed response, fetch returns one record
per entry whose id element is present with non-None text, in document order
(first two conjuncts); an entry without such an id text is silently dropped
(third conjunct); each returned record's id is the last "/"-segment of the
raw id text — which is non-empty exactly when that segment is (fourth
conjunct); and an entry carrying nothing but an id yields a record whose
every other field defaults to empty rather than being rejected (fifth
conjunct). -/
theorem C3_order_drops_and_defaults (entries : List XmlEntry) :
    papersOf (Client.parseResponse (XmlData.wellFormed entries)) =
        entries.filterMap Client.parseSingleEntry ∧
    (papersOf (Client.parseResponse (XmlData.wellFormed entries))).length =
        entries.countP (fun e => (Client.getArxivId e).isSome) ∧
    (∀ e : XmlEntry, Client.parseSingleEntry e = none ↔
        (e.idText = none ∨ e.idText = some none)) ∧
    (∀ (e : XmlEntry) (p : ArxivPaper), Client.parseSingleEntry e = some p →
        e.idText.join.map Client.lastSegment = some p.arxiv_id) ∧
    (∀ t : PyStr, Client.parseSingleEntry { idText := some (some t) } =
        some { arxiv_id := Client.lastSegment t, title := [], authors := [],
               summary := [], published_date := [], categories := [], pdf_url := [] }) := by
  refine ⟨rfl, ?_, ?_, ?_, fun t => rfl⟩
  · show (entries.filterMap Client.parseSingleEntry).length = _
    rw [length_filterMap_eq_countP]
    simp [parseSingleEntry_isSome]
  · intro e
    rcases h : e.idText with _ | ⟨_ | t⟩ <;>
      simp [Client.parseSingleEntry, Client.getArxivId, h]
  · intro e p hp
    rcases h : e.idText with _ | ⟨_ | t⟩ <;>
      simp [Client.parseSingleEntry, Client.getArxivId, h] at hp ⊢
    rw [← hp]

/-- C3 witness: the amended theorem applied to the concrete fully-populated
entry: the record's id is the last segment of the raw id text. -/
theorem C3_order_drops_and_defaults_witness :
    entryFull.idText.join.map Client.lastSegment = some paperFull.arxiv_id :=
  (C3_order_drops_and_defaults [entryFull]).2.2.2.1 entryFull paperFull (by decide)

/-- C4: the adapter's precondition validation checks, in order: existence,
non-emptiness, the size ceiling, the %PDF- header, the page ceiling — each
clause fixes the outcomes of the earlier checks, leaves the later ones fully
unconstrained, and pins the returned reason code, so the first failing check
wins; and the adapter delegates to the external converter exactly on a valid
verdict: on .valid the parse outcome is the converter's outcome, while on any
rejection it is the validation error and is independent of the converter. -/
theorem C4_validation_order_and_delegation (maxSize maxPages : Nat)
    (fs : Pdf.FileSystem) (path : PyStr) :
    (fs path = none →
      Pdf.validatePdf maxSize maxPages fs path = .invalid (str "NotExist")) ∧
    (∀ f : Pdf.PdfFileInfo, fs path = some f → f.size = 0 →
      Pdf.validatePdf maxSize maxPages fs path = .invalid (str "EmptyFile")) ∧
    (∀ f : Pdf.PdfFileInfo, fs path = some f → f.size ≠ 0 → f.size > maxSize →
      Pdf.validatePdf maxSize maxPages fs path = .invalid (str "FileSizeOutLimits")) ∧
    (∀ f : Pdf.PdfFileInfo, fs path = some f → f.size ≠ 0 → f.size ≤ maxSize →
      ¬ Pdf.pdfMagic.isPrefixOf (f.content.take 8) →
      Pdf.validatePdf maxSize maxPages fs path = .invalid (str "FileMissingPDFHeader")) ∧
    (∀ (f : Pdf.PdfFileInfo) (n : Nat), fs path = some f → f.size ≠ 0 → f.size ≤ maxSize →
      Pdf.pdfMagic.isPrefixOf (f.content.take 8) → f.pages = .ok n → n > maxPages →
      Pdf.validatePdf maxSize maxPages fs path = .invalid (str "FilePageOutLimits")) ∧
    (∀ (f : Pdf.PdfFileInfo) (n : Nat), fs path = some f → f.size ≠ 0 → f.size ≤ maxSize →
      Pdf.pdfMagic.isPrefixOf (f.content.take 8) → f.pages = .ok n → n ≤ maxPages →
      Pdf.validatePdf maxSize maxPages fs path = .valid) ∧
    (∀ convert : PyResult Pdf.PdfContent,
      Pdf.validatePdf maxSize maxPages fs path = .valid →
      Pdf.doclingParse maxSize maxPages fs path convert =
        match convert with
        | .ok c => .ok (some c)
        | .exn m => .error (.doclingError m)) ∧
    (∀ (reason : PyStr) (c1 c2 : PyResult Pdf.PdfContent),
      Pdf.validatePdf maxSize maxPages fs path = .invalid reason →
      Pdf.doclingParse maxSize maxPages fs path c1 = .error (.pdfValidationError reason) ∧
      Pdf.doclingParse maxSize maxPages fs path c1 =
        Pdf.doclingParse maxSize maxPages fs path c2) := by
  refine ⟨?_, ?_, ?_, ?_, ?_, ?_, ?_, ?_⟩
  · intro h
    simp [Pdf.validatePdf, h]
  · intro f hf h0
    simp [Pdf.validatePdf, hf, h0]
  · intro f hf h0 hsz
    simp [Pdf.validatePdf, hf, h0, Nat.not_lt.mpr, hsz]
  · intro f hf h0 hsz hmag
    simp [Pdf.validatePdf, hf, h0, Nat.not_lt.mpr hsz, hmag]
  · intro f n hf h0 hsz hmag hp hn
    simp [Pdf.validatePdf, hf, h0, Nat.not_lt.mpr hsz, hmag, hp, hn]
  · intro f n hf h0 hsz hmag hp hn
    simp [Pdf.validatePdf, hf, h0, Nat.not_lt.mpr hsz, hmag, hp, Nat.not_lt.mpr hn]
  · intro convert hv
    cases convert <;> simp [Pdf.doclingParse, hv]
  · intro reason c1 c2 hv
    exact ⟨by simp [Pdf.doclingParse, hv], by simp [Pdf.doclingParse, hv]⟩

/-- C4 witness: the theorem applied at a concrete file whose header check
fails and whose page count also exceeds the limit — the reason surfaced is
the first failing check's (the header), and delegation is cut off. -/
theorem C4_validation_order_witness :
    Pdf.validatePdf 1000 20 fsBadHeader (str "page.html") =
      .invalid (str "FileMissingPDFHeader") :=
  (C4_validation_order_and_delegation 1000 20 fsBadHeader
      (str "page.html")).2.2.2.1 badHeaderPdfFile
    (by decide) (by decide) (by decide) (by decide)

theorem pipelineTrace_snd (paper : ArxivPaper) (b : Fetcher.ItemBehavior) :
    (Fetcher.pipelineTrace paper b).2 = Fetcher.downloadParsePipeline paper b := by
  rcases b with ⟨dl, pr⟩
  rcases dl with p | m
  · rcases p with _ | path
    · rfl
    · rcases pr with c | m2
      · rcases c with _ | c <;> rfl
      · rfl
  · rfl

/-- C9: in every item-pipeline execution, the trace decomposes as the
download-slot acquisition, then download-stage events only, then the
download-slot release — so the release happens immediately after the download
stage completes, success, failure or exception alike, and any parse-slot
acquisition can only occur strictly after the release (it lies in the
remainder); moreover a download that returned None ends the pipeline with the
(False, None) outcome without any parse-slot acquisition, and a download that
raised ends it with the pipeline error, also without any parse-slot
acquisition. -/
theorem C9_download_slot_discipline (paper : ArxivPaper) (b : Fetcher.ItemBehavior) :
    (∃ dstage rest, (Fetcher.pipelineTrace paper b).1 =
        Fetcher.SlotEvent.acquireDownload :: dstage ++
          Fetcher.SlotEvent.releaseDownload :: rest ∧
        (∀ e ∈ dstage, ∃ ok, e = Fetcher.SlotEvent.downloadDone ok)) ∧
    (b.download = .ok none →
        (Fetcher.pipelineTrace paper b).2 = .ok (false, none) ∧
        Fetcher.SlotEvent.acquireParse ∉ (Fetcher.pipelineTrace paper b).1) ∧
    (∀ m : PyStr, b.download = .exn m →
        (Fetcher.pipelineTrace paper b).2 =
          .error (str "Pipeline error for " ++ paper.arxiv_id) ∧
        Fetcher.SlotEvent.acquireParse ∉ (Fetcher.pipelineTrace paper b).1) := by
  rcases b with ⟨dl, pr⟩
  rcases dl with p | m
  · rcases p with _ | path
    · exact ⟨⟨[.downloadDone false], [], rfl, by simp⟩,
        fun _ => ⟨rfl, by simp [Fetcher.pipelineTrace]⟩,
        fun m hm => by simp at hm⟩
    · rcases pr with c | m2
      · rcases c with _ | c
        · exact ⟨⟨[.downloadDone true], [.acquireParse, .parseDone, .releaseParse], rfl, by simp⟩,
            fun h => by simp at h, fun m hm => by simp at hm⟩
        · exact ⟨⟨[.downloadDone true], [.acquireParse, .parseDone, .releaseParse], rfl, by simp⟩,
            fun h => by simp at h, fun m hm => by simp at hm⟩
      · exact ⟨⟨[.downloadDone true], [.acquireParse, .releaseParse], rfl, by simp⟩,
          fun h => by simp at h, fun m hm => by simp at hm⟩
  · exact ⟨⟨[], [], rfl, by simp⟩, fun h => by simp at h,
      fun m2 hm => ⟨rfl, by simp [Fetcher.pipelineTrace]⟩⟩

/-- C9 witness: the theorem applied to a concrete pipeline whose download
returns None: the outcome is (False, None) and no parse slot is acquired. -/
theorem C9_download_slot_discipline_witness :
    (Fetcher.pipelineTrace samplePaperA behaviorNoFile).2 = .ok (false, none) ∧
    Fetcher.SlotEvent.acquireParse ∉ (Fetcher.pipelineTrace samplePaperA behaviorNoFile).1 :=
  (C9_download_slot_discipline samplePaperA behaviorNoFile).2.1 rfl

/-- C8: a download with forceRedownload false on an already-present
destination returns that path with the network-call counter unchanged, and
doing it twice in a row performs zero network calls on the second call as
well. Spec-modelled: download_pdf does not exist under src/. -/
theorem C8_cache_hit_idempotent (s : Download.DlState) (dest : PyStr)
    (atts1 atts2 : List Bool) (h : s.files dest = true) :
    (Download.download false dest atts1 s).1 = some dest ∧
    (Download.download false dest atts1 s).2.networkCalls = s.networkCalls ∧
    (Download.download false dest atts2 (Download.download false dest atts1 s).2).1
        = some dest ∧
    (Download.download false dest atts2 (Download.download false dest atts1 s).2).2.networkCalls
        = s.networkCalls := by
  have h1 : Download.download false dest atts1 s = (some dest, s) := by
    simp [Download.download, h]
  have h2 : Download.download false dest atts2 s = (some dest, s) := by
    simp [Download.download, h]
  exact ⟨by rw [h1], by rw [h1], by rw [h1, h2], by rw [h1, h2]⟩

/-- C8 witness: the theorem applied to the concrete cached state: both calls
return the cached path and the network-call counter stays at 7. -/
theorem C8_cache_hit_idempotent_witness :
    (Download.download false (str "data/arxiv_pdfs/2301.00001v1.pdf") [true, false]
        cachedState).1 = some (str "data/arxiv_pdfs/2301.00001v1.pdf") ∧
    (Download.download false (str "data/arxiv_pdfs/2301.00001v1.pdf") [true, false]
        cachedState).2.networkCalls = cachedState.networkCalls ∧
    (Download.download false (str "data/arxiv_pdfs/2301.00001v1.pdf") [false]
        (Download.download false (str "data/arxiv_pdfs/2301.00001v1.pdf") [true, false]
          cachedState).2).1 = some (str "data/arxiv_pdfs/2301.00001v1.pdf") ∧
    (Download.download false (str "data/arxiv_pdfs/2301.00001v1.pdf") [false]
        (Download.download false (str "data/arxiv_pdfs/2301.00001v1.pdf") [true, false]
          cachedState).2).2.networkCalls = cachedState.networkCalls :=
  C8_cache_hit_idempotent cachedState (str "data/arxiv_pdfs/2301.00001v1.pdf")
    [true, false] [false] (by decide)

theorem issueNetworkCall_post (delay : Nat) (s : Rate.RLState) :
    ((Rate.issueNetworkCall delay s).1).lastRequestTime =
        some (Rate.issueNetworkCall delay s).2 ∧
    ((Rate.issueNetworkCall delay s).1).clock = (Rate.issueNetworkCall delay s).2 :=
  ⟨rfl, rfl⟩

theorem issueNetworkCall_spacing (delay : Nat) (s : Rate.RLState) (t : Nat)
    (hl : s.lastRequestTime = some t) (hle : t ≤ s.clock) :
    t + delay ≤ (Rate.issueNetworkCall delay s).2 := by
  unfold Rate.issueNetworkCall Rate.rateLimitWait
  rw [hl]
  dsimp only
  split_ifs with h
  · dsimp only
    omega
  · omega

theorem runCalls_chain_aux (delay : Nat) (ops : List Rate.NetOp) :
    ∀ s : Rate.RLState, (∀ t, s.lastRequestTime = some t → t ≤ s.clock) →
      List.Chain' (fun t1 t2 => t1 + delay ≤ t2) (Rate.runCalls delay ops s) ∧
      (∀ t u, s.lastRequestTime = some t →
        (Rate.runCalls delay ops s).head? = some u → t + delay ≤ u) := by
  induction ops with
  | nil =>
    intro s _
    exact ⟨List.chain'_nil, by intro t u _ hu; simp [Rate.runCalls] at hu⟩
  | cons op rest ih =>
    intro s hs
    have step :
        ∀ adv : Nat,
          let s1 : Rate.RLState := { s with clock := s.clock + adv }
          List.Chain' (fun t1 t2 => t1 + delay ≤ t2)
            ((Rate.issueNetworkCall delay s1).2 ::
              Rate.runCalls delay rest (Rate.issueNetworkCall delay s1).1) ∧
          (∀ t u, s.lastRequestTime = some t →
            ((Rate.issueNetworkCall delay s1).2 ::
              Rate.runCalls delay rest (Rate.issueNetworkCall delay s1).1).head? = some u →
            t + delay ≤ u) := by
      intro adv
      set s1 : Rate.RLState := { s with clock := s.clock + adv } with hs1
      obtain ⟨post1, post2⟩ := issueNetworkCall_post delay s1
      obtain ⟨ihChain, ihHead⟩ := ih (Rate.issueNetworkCall delay s1).1 (by
        intro t ht
        rw [post1] at ht
        cases ht
        exact le_of_eq post2.symm)
      constructor
      · rw [List.chain'_cons']
        refine ⟨?_, ihChain⟩
        intro b hb
        exact ihHead (Rate.issueNetworkCall delay s1).2 b post1 hb
      · intro t u hlast hu
        simp only [List.head?_cons, Option.some.injEq] at hu
        subst hu
        refine issueNetworkCall_spacing delay s1 t ?_ ?_
        · exact hlast
        · exact le_trans (hs t hlast) (Nat.le_add_right s.clock adv)
    rcases op with adv | adv
    · exact step adv
    · exact step adv

/-- C7: for every interleaving of fetch and download operations threaded
through the single shared rate-limit checkpoint of a freshly constructed
client, the instants at which consecutive network calls go out are at least
the configured minimum delay apart. The fetch side is embedded from
client.py lines 92-98; the download side is spec-modelled (download_pdf is
absent from src/) as a call through the same checkpoint. -/
theorem C7_rate_limit_min_spacing (delay : Nat) (ops : List Rate.NetOp) :
    List.Chain' (fun t1 t2 => t1 + delay ≤ t2)
      (Rate.runCalls delay ops Rate.initState) :=
  (runCalls_chain_aux delay ops Rate.initState
    (by intro t ht; simp [Rate.initState] at ht)).1

theorem getText_eq_elText (el : Option (Option PyStr)) (b : Bool) :
    Client.getText el b = Standalone.elText el b := by
  rcases el with _ | ⟨_ | t⟩ <;> rfl

theorem getCategories_eq_arxivCategories (e : XmlEntry) :
    Client.getCategories e = Standalone.arxivCategories e := by
  unfold Client.getCategories Standalone.arxivCategories
  apply List.filterMap_congr
  intro x _
  rcases x with _ | t <;> rfl

theorem getPdfUrl_eq_arxivPdfUrl (links : List (Option PyStr × Option PyStr)) :
    Client.getPdfUrl links = Standalone.arxivPdfUrl links := by
  induction links with
  | nil => rfl
  | cons l rest ih =>
    rcases l with ⟨ty, href⟩
    by_cases h : ty = some (str "application/pdf") <;>
      simp [Client.getPdfUrl, Standalone.arxivPdfUrl, h, ih]

theorem getAuthors_eq_of_clean (e : XmlEntry) (h : authorsClean e = true) :
    Client.getAuthors e = Standalone.arxivAuthors e := by
  unfold Client.getAuthors Standalone.arxivAuthors
  unfold authorsClean at h
  rw [List.all_eq_true] at h
  apply List.filterMap_congr
  intro x hx
  have hx' := h x hx
  rcases x with _ | ⟨_ | t⟩
  · rfl
  · rfl
  · simp only [decide_eq_true_eq] at hx'
    show (let name := Client.getText (some (some t)) false
          if name = [] then none else some name) =
         (let name := Standalone.elText (some (some t)) true
          if name = [] then none else some name)
    simp only [Client.getText, Standalone.elText]
    rw [hx']
    simp

theorem getArxivId_eq_of_clean (e : XmlEntry) (h : idTextClean e = true) :
    Client.getArxivId e = Standalone.arxivId e := by
  unfold idTextClean at h
  rcases he : e.idText with _ | ⟨_ | t⟩
  · simp [Client.getArxivId, Standalone.arxivId, Standalone.elText, he]
  · simp [Client.getArxivId, Standalone.arxivId, Standalone.elText, he]
  · rw [he] at h
    simp only [Bool.and_eq_true, decide_eq_true_eq] at h
    obtain ⟨⟨hstrip, hrepl⟩, hne⟩ := h
    simp only [Client.getArxivId, Standalone.arxivId, Standalone.elText, he]
    rw [hstrip, hrepl]
    rw [if_neg (by simpa [List.length_eq_zero] using hne)]
    simp

theorem parseEntry_eq_of_clean (e : XmlEntry)
    (hid : idTextClean e = true) (hau : authorsClean e = true) :
    Client.parseSingleEntry e = Standalone.parseArxivPaper e := by
  unfold Client.parseSingleEntry Standalone.parseArxivPaper
  rw [getArxivId_eq_of_clean e hid]
  cases Standalone.arxivId e with
  | none => rfl
  | some id =>
    simp only [Client.getTitle, Client.getSummary, Client.getPublished,
      getText_eq_elText, getAuthors_eq_of_clean e hau,
      getCategories_eq_arxivCategories, getPdfUrl_eq_arxivPdfUrl]

/-- C10 (amended): the standalone parse_arxiv_xml_data and the client's
_parse_response agree on every well-formed response whose entries are clean
— each id text, when its element is present with text, already stripped,
newline-free and non-empty, and each author name text unchanged by newline
replacement after stripping. They are not equivalent in general: an entry
whose id element is present with whitespace-only (or padded) text is treated
differently (see the counterexample), and on malformed input the client
raises ArxivParseError while the standalone function's
`except ET.ParseError | Exception` clause raises TypeError instead. -/
theorem C10_equivalent_on_clean_entries (entries : List XmlEntry)
    (h : ∀ e ∈ entries, idTextClean e = true ∧ authorsClean e = true) :
    Client.parseResponse (XmlData.wellFormed entries) =
      Standalone.parseArxivXmlData (XmlData.wellFormed entries) := by
  simp only [Client.parseResponse, Standalone.parseArxivXmlData, Except.ok.injEq]
  apply List.filterMap_congr
  intro e he
  exact parseEntry_eq_of_clean e (h e he).1 (h e he).2

/-- C10 witness: the equivalence theorem applied to the concrete clean
entry. -/
theorem C10_equivalent_on_clean_entries_witness :
    Client.parseResponse (XmlData.wellFormed [entryFull]) =
      Standalone.parseArxivXmlData (XmlData.wellFormed [entryFull]) :=
  C10_equivalent_on_clean_entries [entryFull] (by decide)

/-- C10 counterexample: on the well-formed response whose single entry has a
whitespace-only id text, the client's parser keeps the entry (returning one
record, with the raw whitespace id) while the standalone parser cleans the
text to empty and drops the entry (returning zero records): the two
implementations are not behaviourally equivalent, precisely on an entry whose
id element is present but empty. -/
theorem C10_counterexample :
    Client.parseResponse (XmlData.wellFormed [entryWsId]) ≠
      Standalone.parseArxivXmlData (XmlData.wellFormed [entryWsId]) ∧
    (papersOf (Client.parseResponse (XmlData.wellFormed [entryWsId]))).length = 1 ∧
    (papersOf (Standalone.parseArxivXmlData (XmlData.wellFormed [entryWsId]))).length = 0 := by
  decide

end ArxivCurator
